import Mathlib

/-
Verification of the AnkiVoiceRecorder addon (src/myaddon/__init__.py)
against its natural-language specification.

Shallow embedding conventions:
* A wave file is modelled at the sample level: a `WavFile` carries the
  format parameters returned by `wave.Wave_read.getparams()` and the
  decoded signed samples (`List Int`), rather than raw bytes.
* Python floats are modelled as exact rationals (`ℚ`); `audioop.mul`
  computes `factor * sample` and saturates via CPython's `fbound`,
  which is `clamp (floor v) minval maxval` for the sample width.
* Filesystem state is an association list from paths to file contents;
  a content is either a parseable wave file or malformed data.
* Host-side effects (Qt tooltips, warnings, capture control, playback,
  config persistence, stdout prints) are recorded as an `Effect` list.
* Host-provided pure helpers with no source in this repository
  (`QKeySequence` validity and normalisation) are passed as function
  parameters; Python's `str.strip` is modelled by `pyStrip`.
-/

namespace AVR

/-- Python `str.strip()`: drop whitespace from both ends of a string.
Implemented structurally so it evaluates by kernel reduction. -/
def pyStrip (s : String) : String :=
  ⟨((s.data.dropWhile Char.isWhitespace).reverse.dropWhile Char.isWhitespace).reverse⟩

/-- Parameters and decoded samples of a PCM wave file, matching the
fields of `wave.getparams()` (`nchannels, sampwidth, framerate, nframes,
comptype`) plus the sample data of the data chunk.  `samples` lists the
signed sample values channel-interleaved, one `Int` per sample. -/
structure WavFile where
  nchannels : Nat
  sampwidth : Nat
  framerate : Nat
  nframes : Nat
  comptype : String
  samples : List Int
deriving DecidableEq, Repr

/-- Largest representable sample for a byte width, as in CPython
`audioop.c` (`maxvals`): `2 ^ (8 w - 1) - 1`. -/
def maxval (w : Nat) : Int := 2 ^ (8 * w - 1) - 1

/-- Smallest representable sample for a byte width, as in CPython
`audioop.c` (`minvals`): `-(2 ^ (8 w - 1))`. -/
def minval (w : Nat) : Int := -(2 ^ (8 * w - 1))

/-- A wave file is valid PCM when its sample width is one audioop
supports, it has at least one channel, the header frame count is
consistent with the data, it is uncompressed, and every sample is in
the representable range of the sample width. -/
def validWav (f : WavFile) : Bool :=
  (f.sampwidth == 1 || f.sampwidth == 2 || f.sampwidth == 3 || f.sampwidth == 4) &&
  decide (1 ≤ f.nchannels) &&
  (f.samples.length == f.nframes * f.nchannels) &&
  (f.comptype == "NONE") &&
  f.samples.all (fun x => decide (minval f.sampwidth ≤ x) && decide (x ≤ maxval f.sampwidth))

/-- One sample of CPython `audioop.mul`: the double product
`factor * sample` pushed through `fbound`, i.e. floored and clamped to
the representable range of the sample width.  The double-precision
product is modelled as the exact rational product. -/
def mul_sample (size : Nat) (factor : ℚ) (x : Int) : Int :=
  max (minval size) (min (maxval size) ⌊factor * (x : ℚ)⌋)

/-- CPython `audioop.mul`: multiplies every sample by `factor` with
saturation; raises (here: returns `.error`) when the sample width is
not 1, 2, 3 or 4. -/
def audioop_mul (frames : List Int) (size : Nat) (factor : ℚ) :
    Except String (List Int) :=
  if size == 1 || size == 2 || size == 3 || size == 4 then
    .ok (frames.map (mul_sample size factor))
  else
    .error "Size should be 1, 2, 3 or 4"

/-- Content stored at a path: either a wave file the `wave` module can
parse, or malformed bytes on which `wave.open(..., "rb")` raises. -/
inductive WavContent where
  | wav (f : WavFile)
  | malformed (desc : String)
deriving DecidableEq, Repr

/-- `wave.open(path, "rb")` followed by `getparams()`: fails on
malformed data, on a zero channel count, a zero sample width, or a
compressed format, and otherwise yields the parsed file. -/
def wave_read : WavContent → Except String WavFile
  | .malformed d => .error d
  | .wav f =>
    if f.nchannels == 0 then .error "bad number of channels"
    else if f.sampwidth == 0 then .error "bad sample width"
    else if f.comptype != "NONE" then .error "unknown format"
    else .ok f

/-- `wave.open(path, "wb")` with `setparams` then `writeframes`: the
format parameters are written unchanged, and `writeframes` patches the
header frame count to the number of frames actually written. -/
def wave_write (f : WavFile) : WavContent :=
  .wav { f with nframes := f.samples.length / f.nchannels }

/-- Filesystem state: an association list from paths to contents, first
match wins. -/
abbrev FS := List (String × WavContent)

/-- Look a path up in the filesystem (`Path.exists` / open-for-read). -/
def fs_lookup : FS → String → Option WavContent
  | [], _ => none
  | (q, c) :: rest, p => if q = p then some c else fs_lookup rest p

/-- Overwrite the file at a path (open-for-write): replaces the first
entry for the path, or creates the file when absent. -/
def fs_update : FS → String → WavContent → FS
  | [], p, c => [(p, c)]
  | (q, c0) :: rest, p, c =>
    if q = p then (q, c) :: rest else (q, c0) :: fs_update rest p c

/-- `_amplify_wav(path, gain)`: silently returns when the path does not
exist; otherwise reads the file, reads `nframes` frames of samples,
scales them with `audioop.mul`, and rewrites the file in place with the
same parameters.  Any failure while reading or scaling is caught and
printed (the returned `Option String` is the diagnostic print, `none`
when nothing was printed); the caller never sees an exception.  I/O
failures during the rewrite itself are outside the model (filesystem
writes are total here). -/
def amplify_wav (fs : FS) (path : String) (gain : ℚ) : FS × Option String :=
  match fs_lookup fs path with
  | none => (fs, none)
  | some content =>
    match wave_read content with
    | .error e => (fs, some ("AnkiVoiceRecorder gain failed: " ++ e))
    | .ok f =>
      let frames := f.samples.take (f.nframes * f.nchannels)
      match audioop_mul frames f.sampwidth gain with
      | .error e => (fs, some ("AnkiVoiceRecorder gain failed: " ++ e))
      | .ok amplified =>
        (fs_update fs path (wave_write { f with samples := amplified }), none)

/-- A Python float value: a finite number (modelled as an exact
rational), one of the two infinities, or nan. -/
inductive PyFloat where
  | finite (q : ℚ)
  | inf
  | neginf
  | nan
deriving DecidableEq, Repr

/-- IEEE 754 `<` on Python floats: nan compares false with everything,
`-inf` is below and `+inf` above every other value, finite values
compare as rationals. -/
def pyLt : PyFloat → PyFloat → Bool
  | .nan, _ => false
  | _, .nan => false
  | .neginf, .neginf => false
  | .neginf, _ => true
  | _, .neginf => false
  | .inf, _ => false
  | .finite _, .inf => true
  | .finite a, .finite b => decide (a < b)

/-- Outcome of Python `float(...)` on the stored gain value: a float
value (finite, infinite, or nan — e.g. `float("nan")` succeeds), an
`OverflowError` for an int too large for a float (NOT caught by the
`except (TypeError, ValueError)` clause), or a caught `TypeError` /
`ValueError` (unparseable). -/
inductive GainEntry where
  | parsed (v : PyFloat)
  | overflow
  | unparseable
deriving DecidableEq

def DEFAULT_RECORD_SHORTCUT : String := "Ctrl+R"

def DEFAULT_PLAY_SHORTCUT : String := "Ctrl+Shift+R"

/-- The persisted configuration record.  `none` fields are absent keys
(`config.get` then falls back to its default). -/
structure Config where
  save_dir : String
  gain : Option GainEntry
  record_shortcut : Option String
  play_shortcut : Option String
deriving DecidableEq

/-- `_get_config()`: the stored configuration, or the synthesized
default (written back) when the host returns `None`. -/
def get_config : Option Config → Config
  | some c => c
  | none =>
    { save_dir := ""
      gain := some (.parsed (.finite 1))
      record_shortcut := some DEFAULT_RECORD_SHORTCUT
      play_shortcut := some DEFAULT_PLAY_SHORTCUT }

/-- `_get_gain()` in full: `float(config.get("gain", 1.25))`, with 1.25
substituted when `float` raises a caught `TypeError`/`ValueError`, then
the two clamp tests `gain < 0.1` and `gain > 5.0` with IEEE float
comparison.  An `OverflowError` from `float` propagates uncaught
(`.error`); a nan parse fails both comparisons and is returned
unclamped; infinities clamp to the boundaries. -/
def get_gain_result (oc : Option Config) : Except String PyFloat :=
  let parsed : Except String PyFloat :=
    match (get_config oc).gain with
    | none => .ok (.finite 1.25)
    | some (.parsed v) => .ok v
    | some .unparseable => .ok (.finite 1.25)
    | some .overflow => .error "OverflowError: int too large to convert to float"
  match parsed with
  | .error e => .error e
  | .ok gain =>
    if pyLt gain (.finite 0.1) then .ok (.finite 0.1)
    else if pyLt (.finite 5.0) gain then .ok (.finite 5.0)
    else .ok gain

/-- The finite fragment of `get_gain_result`, used by the recorder
model: whenever `_get_gain()` returns a finite float (finite, absent,
unparseable or infinite stored gains) this is that value — see
`get_gain_eq_of_finite`.  On the two outcomes outside the recorder
fragment (a nan parse, which the host pipeline would pass on to
`audioop.mul`, and an uncaught `OverflowError`, which would propagate
into the host event loop) it falls back to the default 1.25; recorder
claims are instantiated only inside the fragment. -/
def get_gain (oc : Option Config) : ℚ :=
  match get_gain_result oc with
  | .ok (.finite q) => q
  | _ => 1.25

/-- Whether a gain resolution outcome is a finite number lying in the
interval `[0.1, 5.0]` (the property the specification promises of every
resolved gain). -/
def gain_in_range : Except String PyFloat → Bool
  | .ok (.finite q) => decide ((0.1 : ℚ) ≤ q ∧ q ≤ 5)
  | _ => false

/-- `_get_save_dir()`: the stripped configured directory when nonempty,
else the collection's media directory. -/
def get_save_dir (oc : Option Config) (media_dir : String) : String :=
  let raw := pyStrip (get_config oc).save_dir
  if raw ≠ "" then raw else media_dir

/-- `_get_record_shortcut()`: the stripped configured string when
nonempty and valid as a key sequence (validity and normalisation are
host functions, passed in), else the default. -/
def get_record_shortcut (valid : String → Bool) (norm : String → String)
    (oc : Option Config) : String :=
  let raw := pyStrip ((get_config oc).record_shortcut.getD DEFAULT_RECORD_SHORTCUT)
  if raw ≠ "" && valid raw then norm raw else DEFAULT_RECORD_SHORTCUT

/-- Observable host-side actions performed by the addon. -/
inductive Effect where
  | warn (msg : String)
  | tooltip (msg : String)
  | log (msg : String)
  | begin_capture (path : String)
  | end_capture
  | play (path : String)
  | prompt (title default : String)
  | write_config (c : Config)
  | apply_shortcuts
deriving DecidableEq

/-- The mutable fields of the `VoiceRecorder` instance:
`self._recording` and `self._last_path`. -/
structure Recorder where
  recording : Bool
  last_path : Option String
deriving DecidableEq

/-- Full mutable state visible to the recorder operations. -/
structure Sys where
  recorder : Recorder
  fs : FS
deriving DecidableEq

/-- Host environment consulted by the operations: whether a collection
is open, whether an audio input device exists, the stored configuration,
the media directory, the current timestamp string, and the host key
sequence validity and normalisation functions. -/
structure Env where
  col_open : Bool
  has_audio_input : Bool
  config : Option Config
  media_dir : String
  now : String
  shortcut_valid : String → Bool
  shortcut_norm : String → String

/-- `Path.name`: the final path component. -/
def basename (p : String) : String :=
  ((p.splitOn "/").getLast?).getD p

/-- `VoiceRecorder.start()`: warns and leaves state untouched when no
collection is open or no input device exists; otherwise computes the
destination `<save_dir>/voice_<timestamp>.wav`, begins host capture to
it, sets `_recording = True` and points `_last_path` at the new file.
Note the method itself performs no check of `self._recording`. -/
def start (env : Env) (s : Sys) : Sys × List Effect :=
  if env.col_open = false then
    (s, [.warn "No collection is open."])
  else if env.has_audio_input = false then
    (s, [.warn "No audio input device available."])
  else
    let dir := get_save_dir env.config env.media_dir
    let path := dir ++ "/" ++ ("voice_" ++ env.now ++ ".wav")
    let rs := get_record_shortcut env.shortcut_valid env.shortcut_norm env.config
    ({ s with recorder := { recording := true, last_path := some path } },
     [.begin_capture path,
      .tooltip ("Recording started (" ++ rs ++ " to stop)")])

/-- `VoiceRecorder.stop()`: unconditionally halts host capture and sets
`_recording = False`; then, whenever `_last_path` is set, runs the
amplifier on that file with the currently configured gain and reports
completion, else only reports that recording stopped.  Note the method
performs no check of `self._recording`. -/
def stop (env : Env) (s : Sys) : Sys × List Effect :=
  match s.recorder.last_path with
  | some p =>
    let r := amplify_wav s.fs p (get_gain env.config)
    ({ recorder := { recording := false, last_path := some p }, fs := r.1 },
     [Effect.end_capture] ++
       (match r.2 with | some m => [Effect.log m] | none => []) ++
       [Effect.log ("AnkiVoiceRecorder saved: " ++ p),
        Effect.tooltip ("Recording saved: " ++ basename p)])
  | none =>
    ({ recorder := { recording := false, last_path := none }, fs := s.fs },
     [Effect.end_capture, Effect.tooltip "Recording stopped."])

/-- `VoiceRecorder.play_last()`: warns when `_last_path` is unset, warns
when the file no longer exists, and otherwise plays it.  The recorder
state and the filesystem are never modified. -/
def play_last (s : Sys) : List Effect :=
  match s.recorder.last_path with
  | none => [.warn "No recording available yet."]
  | some p =>
    match fs_lookup s.fs p with
    | none => [.warn "Last recording file is missing."]
    | some _ => [.play p, .tooltip "Playing last recording"]

/-- `VoiceRecorder.toggle()`: dispatches to `stop` when recording, else
to `start`. -/
def toggle (env : Env) (s : Sys) : Sys × List Effect :=
  if s.recorder.recording then stop env s else start env s

/-- A user-triggered event, carrying the host environment at the moment
it fires. -/
inductive Event where
  | start (env : Env)
  | stop (env : Env)
  | toggle (env : Env)
  | play_last (env : Env)

/-- Dispatch one event to the recorder. -/
def step : Event → Sys → Sys × List Effect
  | .start env, s => start env s
  | .stop env, s => stop env s
  | .toggle env, s => toggle env s
  | .play_last _, s => (s, play_last s)

/-- Run a sequence of events from a state, accumulating effects. -/
def run : List Event → Sys → Sys × List Effect
  | [], s => (s, [])
  | e :: es, s =>
    ((run es (step e s).1).1, (step e s).2 ++ (run es (step e s).1).2)

/-- The recorder state constructed by `VoiceRecorder.__init__`:
not recording, no last path; the initial filesystem is arbitrary. -/
def init (fs : FS) : Sys :=
  { recorder := { recording := false, last_path := none }, fs := fs }

/-- Fold step extracting the last capture destination from an effect
list. -/
def begin_step (acc : Option String) (e : Effect) : Option String :=
  match e with
  | .begin_capture p => some p
  | _ => acc

/-- The destination of the most recent `begin_capture` effect in a
list, starting from a given earlier value. -/
def last_begin_from (acc : Option String) (efs : List Effect) : Option String :=
  efs.foldl begin_step acc

/-- The destination of the most recent `begin_capture` effect, if any. -/
def last_begin (efs : List Effect) : Option String :=
  last_begin_from none efs

/-- Default text shown in the record shortcut dialog: the stripped
stored value, or the built-in default when empty. -/
def current_record_text (c : Config) : String :=
  let t := pyStrip (c.record_shortcut.getD DEFAULT_RECORD_SHORTCUT)
  if t = "" then DEFAULT_RECORD_SHORTCUT else t

/-- Default text shown in the play shortcut dialog. -/
def current_play_text (c : Config) : String :=
  let t := pyStrip (c.play_shortcut.getD DEFAULT_PLAY_SHORTCUT)
  if t = "" then DEFAULT_PLAY_SHORTCUT else t

/-- `_set_keybindings()`: prompts for the record shortcut (cancel keeps
everything), rejects an invalid record shortcut with a warning, then
prompts for the play shortcut (cancel keeps everything), rejects an
invalid play shortcut with a warning, and only when both validate
stores both normalised shortcuts and persists the configuration.
Dialog results are inputs (`none` = cancelled); key sequence validity
and normalisation are host functions, passed in. -/
def set_keybindings (valid : String → Bool) (norm : String → String)
    (record_input play_input : Option String) (c : Config) :
    Config × List Effect :=
  let current_record := current_record_text c
  match record_input with
  | none => (c, [.prompt "Recording Shortcut" current_record])
  | some rt0 =>
    let rt := pyStrip rt0
    if valid rt = false then
      (c, [.prompt "Recording Shortcut" current_record,
           .warn "Invalid shortcut for recording."])
    else
      let current_play := current_play_text c
      match play_input with
      | none => (c, [.prompt "Recording Shortcut" current_record,
                     .prompt "Playback Shortcut" current_play])
      | some pt0 =>
        let pt := pyStrip pt0
        if valid pt = false then
          (c, [.prompt "Recording Shortcut" current_record,
               .prompt "Playback Shortcut" current_play,
               .warn "Invalid shortcut for playback."])
        else
          let c2 : Config :=
            { c with record_shortcut := some (norm rt), play_shortcut := some (norm pt) }
          (c2, [.prompt "Recording Shortcut" current_record,
                .prompt "Playback Shortcut" current_play,
                .write_config c2, .apply_shortcuts,
                .tooltip "Shortcuts updated."])

/-! ## Helper lemmas about the filesystem and the amplifier -/

lemma fs_lookup_update_self (fs : FS) (p : String) (c : WavContent) :
    fs_lookup (fs_update fs p c) p = some c := by
  induction fs with
  | nil => simp [fs_update, fs_lookup]
  | cons hd tl ih =>
    obtain ⟨q, c0⟩ := hd
    by_cases h : q = p
    · simp [fs_update, fs_lookup, h]
    · simp [fs_update, fs_lookup, h, ih]

lemma fs_lookup_update_other (fs : FS) (p q : String) (c : WavContent)
    (hne : q ≠ p) : fs_lookup (fs_update fs p c) q = fs_lookup fs q := by
  induction fs with
  | nil => simp [fs_update, fs_lookup, Ne.symm hne]
  | cons hd tl ih =>
    obtain ⟨r, c0⟩ := hd
    by_cases h : r = p
    · subst h
      simp [fs_update, fs_lookup, Ne.symm hne]
    · simp [fs_update, fs_lookup, h, ih]

lemma fs_update_lookup_eq (fs : FS) (p : String) (c : WavContent)
    (hl : fs_lookup fs p = some c) : fs_update fs p c = fs := by
  induction fs with
  | nil => simp [fs_lookup] at hl
  | cons hd tl ih =>
    obtain ⟨q, c0⟩ := hd
    by_cases h : q = p
    · subst h
      simp [fs_lookup] at hl
      simp [fs_update, hl]
    · simp [fs_lookup, h] at hl
      simp [fs_update, h, ih hl]

/-- Unpacked form of `validWav`. -/
lemma validWav_iff (f : WavFile) :
    validWav f = true ↔
      (f.sampwidth = 1 ∨ f.sampwidth = 2 ∨ f.sampwidth = 3 ∨ f.sampwidth = 4) ∧
      1 ≤ f.nchannels ∧
      f.samples.length = f.nframes * f.nchannels ∧
      f.comptype = "NONE" ∧
      ∀ x ∈ f.samples, minval f.sampwidth ≤ x ∧ x ≤ maxval f.sampwidth := by
  simp only [validWav, Bool.and_eq_true, Bool.or_eq_true, beq_iff_eq,
    decide_eq_true_eq, List.all_eq_true]
  tauto

/-- A successful run of the amplifier: on an existing, valid wave file
it rewrites exactly that file with every sample scaled and saturated,
and prints nothing. -/
lemma amplify_wav_ok (fs : FS) (p : String) (g : ℚ) (f : WavFile)
    (hl : fs_lookup fs p = some (.wav f)) (hv : validWav f = true) :
    amplify_wav fs p g =
      (fs_update fs p
        (.wav { f with samples := f.samples.map (mul_sample f.sampwidth g) }),
       none) := by
  obtain ⟨hw, hch, hlen, hcomp, _⟩ := (validWav_iff f).mp hv
  have hch0 : f.nchannels ≠ 0 := by omega
  have hsw0 : f.sampwidth ≠ 0 := by rcases hw with h | h | h | h <;> omega
  have hread : wave_read (.wav f) = .ok f := by
    simp [wave_read, hch0, hsw0, hcomp]
  have htake : f.samples.take (f.nframes * f.nchannels) = f.samples := by
    rw [← hlen, List.take_length]
  have hmul : audioop_mul f.samples f.sampwidth g =
      .ok (f.samples.map (mul_sample f.sampwidth g)) := by
    rcases hw with h | h | h | h <;> simp [audioop_mul, h]
  have hnf : (f.samples.map (mul_sample f.sampwidth g)).length / f.nchannels
      = f.nframes := by
    rw [List.length_map, hlen, Nat.mul_div_cancel _ (by omega)]
  have hwrite : wave_write { f with samples := f.samples.map (mul_sample f.sampwidth g) }
      = .wav { f with samples := f.samples.map (mul_sample f.sampwidth g) } := by
    simp only [wave_write, hnf]
  rw [amplify_wav, hl]
  simp only [hread, htake, hmul, hwrite]

lemma mul_sample_one (w : Nat) (x : Int)
    (h1 : minval w ≤ x) (h2 : x ≤ maxval w) : mul_sample w 1 x = x := by
  rw [mul_sample, one_mul, Int.floor_intCast, min_eq_right h2, max_eq_right h1]

lemma map_mul_sample_one (w : Nat) (l : List Int)
    (hb : ∀ x ∈ l, minval w ≤ x ∧ x ≤ maxval w) :
    l.map (mul_sample w 1) = l := by
  induction l with
  | nil => rfl
  | cons hd tl ih =>
    have hhd := hb hd (by simp)
    simp only [List.map_cons, mul_sample_one w hd hhd.1 hhd.2,
      ih (fun x hx => hb x (by simp [hx])), List.cons.injEq, and_self]

/-! ## Claims about the amplifier -/

/-- C1: for every valid PCM wave file and every gain `g` in `[0.1, 5.0]`,
running the amplifier on the file and reading it back yields, for every
sample, `clamp (floor (g * original)) min max` where `min`/`max` is the
representable signed range of the file's sample width, and the sample
width, channel count, frame rate and compression type are identical to
the original. -/
theorem C1_amplify_scales_and_preserves_params
    (fs : FS) (p : String) (g : ℚ) (f : WavFile)
    (hl : fs_lookup fs p = some (.wav f)) (hv : validWav f = true)
    (hg1 : (0.1 : ℚ) ≤ g) (hg2 : g ≤ 5) :
    ∃ f', fs_lookup (amplify_wav fs p g).1 p = some (.wav f') ∧
      f'.samples = f.samples.map
        (fun (x : Int) => max (minval f.sampwidth) (min (maxval f.sampwidth) ⌊g * (x : ℚ)⌋)) ∧
      f'.sampwidth = f.sampwidth ∧ f'.nchannels = f.nchannels ∧
      f'.framerate = f.framerate ∧ f'.comptype = f.comptype := by
  rw [amplify_wav_ok fs p g f hl hv]
  exact ⟨_, fs_lookup_update_self fs p _, rfl, rfl, rfl, rfl, rfl⟩

/-- Witness for C1 at a concrete 16-bit mono file and gain 2: sample
10000 doubles, -30000 saturates at -32768, 20000 saturates at 32767. -/
theorem C1_amplify_scales_and_preserves_params_witness :
    fs_lookup [("a.wav", WavContent.wav ⟨1, 2, 8000, 3, "NONE", [10000, -30000, 20000]⟩)]
        "a.wav" = some (.wav ⟨1, 2, 8000, 3, "NONE", [10000, -30000, 20000]⟩) ∧
    validWav ⟨1, 2, 8000, 3, "NONE", [10000, -30000, 20000]⟩ = true ∧
    ((0.1 : ℚ) ≤ 2 ∧ (2 : ℚ) ≤ 5) ∧
    (∃ f', fs_lookup
        (amplify_wav [("a.wav", WavContent.wav ⟨1, 2, 8000, 3, "NONE", [10000, -30000, 20000]⟩)]
          "a.wav" 2).1 "a.wav" = some (.wav f') ∧
      f'.samples = [10000, -30000, 20000].map
        (fun (x : Int) => max (minval 2) (min (maxval 2) ⌊(2 : ℚ) * (x : ℚ)⌋)) ∧
      f'.sampwidth = 2 ∧ f'.nchannels = 1 ∧
      f'.framerate = 8000 ∧ f'.comptype = "NONE") :=
  ⟨rfl, by decide, ⟨by norm_num, by norm_num⟩,
   C1_amplify_scales_and_preserves_params
     [("a.wav", WavContent.wav ⟨1, 2, 8000, 3, "NONE", [10000, -30000, 20000]⟩)]
     "a.wav" 2 ⟨1, 2, 8000, 3, "NONE", [10000, -30000, 20000]⟩ rfl (by decide)
     (by norm_num) (by norm_num)⟩

/-- C8: amplifying a valid PCM file with gain 1.0 is the identity: the
whole filesystem is returned unchanged and nothing is printed, so the
output samples equal the input samples and a second application does
the same (idempotence). -/
theorem C8_amplify_gain_one_identity
    (fs : FS) (p : String) (f : WavFile)
    (hl : fs_lookup fs p = some (.wav f)) (hv : validWav f = true) :
    amplify_wav fs p 1 = (fs, none) := by
  rw [amplify_wav_ok fs p 1 f hl hv,
    map_mul_sample_one f.sampwidth f.samples ((validWav_iff f).mp hv).2.2.2.2]
  have heta : ({ f with samples := f.samples } : WavFile) = f := rfl
  rw [heta, fs_update_lookup_eq fs p _ hl]

/-- Witness for C8 at a concrete 16-bit file. -/
theorem C8_amplify_gain_one_identity_witness :
    fs_lookup [("a.wav", WavContent.wav ⟨1, 2, 8000, 2, "NONE", [12345, -32768]⟩)]
        "a.wav" = some (.wav ⟨1, 2, 8000, 2, "NONE", [12345, -32768]⟩) ∧
    validWav ⟨1, 2, 8000, 2, "NONE", [12345, -32768]⟩ = true ∧
    amplify_wav [("a.wav", WavContent.wav ⟨1, 2, 8000, 2, "NONE", [12345, -32768]⟩)]
        "a.wav" 1
      = ([("a.wav", WavContent.wav ⟨1, 2, 8000, 2, "NONE", [12345, -32768]⟩)], none) :=
  ⟨rfl, by decide,
   C8_amplify_gain_one_identity
     [("a.wav", WavContent.wav ⟨1, 2, 8000, 2, "NONE", [12345, -32768]⟩)]
     "a.wav" ⟨1, 2, 8000, 2, "NONE", [12345, -32768]⟩ rfl (by decide)⟩

/-- C10: on every valid PCM file, a successful amplification rewrites
the file with exactly as many samples as it read and an unchanged frame
count: the recording is neither truncated nor extended. -/
theorem C10_amplify_preserves_frame_count
    (fs : FS) (p : String) (g : ℚ) (f : WavFile)
    (hl : fs_lookup fs p = some (.wav f)) (hv : validWav f = true) :
    ∃ f', fs_lookup (amplify_wav fs p g).1 p = some (.wav f') ∧
      f'.samples.length = f.samples.length ∧ f'.nframes = f.nframes := by
  rw [amplify_wav_ok fs p g f hl hv]
  exact ⟨_, fs_lookup_update_self fs p _, List.length_map _ _, rfl⟩

/-- Witness for C10 at a concrete stereo 8-bit file and gain 3. -/
theorem C10_amplify_preserves_frame_count_witness :
    fs_lookup [("b.wav", WavContent.wav ⟨2, 1, 8000, 2, "NONE", [100, -100, 7, -8]⟩)]
        "b.wav" = some (.wav ⟨2, 1, 8000, 2, "NONE", [100, -100, 7, -8]⟩) ∧
    validWav ⟨2, 1, 8000, 2, "NONE", [100, -100, 7, -8]⟩ = true ∧
    (∃ f', fs_lookup
        (amplify_wav [("b.wav", WavContent.wav ⟨2, 1, 8000, 2, "NONE", [100, -100, 7, -8]⟩)]
          "b.wav" 3).1 "b.wav" = some (.wav f') ∧
      f'.samples.length = 4 ∧ f'.nframes = 2) :=
  ⟨rfl, by decide,
   C10_amplify_preserves_frame_count
     [("b.wav", WavContent.wav ⟨2, 1, 8000, 2, "NONE", [100, -100, 7, -8]⟩)]
     "b.wav" 3 ⟨2, 1, 8000, 2, "NONE", [100, -100, 7, -8]⟩ rfl (by decide)⟩

/-! ## Claims about the configuration resolver -/

/-- Whenever the full resolver returns a finite float, the recorder
fragment `get_gain` is that value. -/
lemma get_gain_eq_of_finite (oc : Option Config) (q : ℚ)
    (h : get_gain_result oc = .ok (.finite q)) : get_gain oc = q := by
  simp [get_gain, h]

/-- C2 as stated is false on the code: with a stored gain of `"nan"`,
`float` succeeds, both clamp comparisons are false, and `_get_gain`
returns nan — a resolved gain that is not a number in `[0.1, 5.0]`;
with a stored gain int too large for a float, `float` raises
`OverflowError`, which `except (TypeError, ValueError)` does not catch,
so the resolver raises instead of returning a clamped value.  Either
way the universal clamped-to-`[0.1, 5.0]` guarantee fails. -/
theorem C2_counterexample :
    get_gain_result (some ⟨"", some (.parsed .nan), none, none⟩) = .ok .nan ∧
    gain_in_range (get_gain_result (some ⟨"", some (.parsed .nan), none, none⟩))
      = false ∧
    get_gain_result (some ⟨"", some .overflow, none, none⟩)
      = .error "OverflowError: int too large to convert to float" ∧
    gain_in_range (get_gain_result (some ⟨"", some .overflow, none, none⟩))
      = false :=
  ⟨rfl, rfl, rfl, rfl⟩

/-- C2 amended: when the stored gain parses to a finite number the
resolved gain is that value clamped into `[0.1, 5.0]` (below 0.1
resolves to 0.1, above 5.0 resolves to 5.0); an absent or unparseable
(`TypeError`/`ValueError`) entry resolves to 1.25; an infinite parse
clamps to the nearer boundary; but a nan parse is returned unclamped —
outside `[0.1, 5.0]` — and a stored int too large for a float makes the
resolver raise `OverflowError` uncaught instead of resolving at all. -/
theorem C2_amended_gain_resolution (oc : Option Config) :
    (∀ q, (get_config oc).gain = some (.parsed (.finite q)) →
      ((q < 0.1 → get_gain_result oc = .ok (.finite 0.1)) ∧
       (5 < q → get_gain_result oc = .ok (.finite 5)) ∧
       ((0.1 : ℚ) ≤ q → q ≤ 5 → get_gain_result oc = .ok (.finite q)))) ∧
    ((get_config oc).gain = some .unparseable →
      get_gain_result oc = .ok (.finite 1.25)) ∧
    ((get_config oc).gain = none → get_gain_result oc = .ok (.finite 1.25)) ∧
    ((get_config oc).gain = some (.parsed .inf) →
      get_gain_result oc = .ok (.finite 5)) ∧
    ((get_config oc).gain = some (.parsed .neginf) →
      get_gain_result oc = .ok (.finite 0.1)) ∧
    ((get_config oc).gain = some (.parsed .nan) → get_gain_result oc = .ok .nan) ∧
    ((get_config oc).gain = some .overflow →
      get_gain_result oc = .error "OverflowError: int too large to convert to float") := by
  have h5 : (5.0 : ℚ) = 5 := by norm_num
  refine ⟨?_, ?_, ?_, ?_, ?_, ?_, ?_⟩
  · intro q hq
    refine ⟨?_, ?_, ?_⟩
    · intro h
      have h1 : pyLt (.finite q) (.finite 0.1) = true := by
        simp only [pyLt, decide_eq_true_eq]
        exact h
      simp [get_gain_result, hq, h1]
    · intro h
      have h1 : pyLt (.finite q) (.finite 0.1) = false := by
        simp only [pyLt, decide_eq_false_iff_not]
        push_neg
        linarith
      have h2 : pyLt (.finite 5.0) (.finite q) = true := by
        simp only [pyLt, decide_eq_true_eq]
        rw [h5]
        exact h
      simp only [get_gain_result, hq, h1, h2]
      norm_num
    · intro hlo hhi
      have h1 : pyLt (.finite q) (.finite 0.1) = false := by
        simp only [pyLt, decide_eq_false_iff_not]
        push_neg
        exact hlo
      have h2 : pyLt (.finite 5.0) (.finite q) = false := by
        simp only [pyLt, decide_eq_false_iff_not]
        push_neg
        rw [h5]
        exact hhi
      simp [get_gain_result, hq, h1, h2]
  · intro hq
    have h1 : pyLt (.finite 1.25) (.finite 0.1) = false := by
      simp only [pyLt, decide_eq_false_iff_not]
      norm_num
    have h2 : pyLt (.finite 5.0) (.finite 1.25) = false := by
      simp only [pyLt, decide_eq_false_iff_not]
      norm_num
    simp [get_gain_result, hq, h1, h2]
  · intro hq
    have h1 : pyLt (.finite 1.25) (.finite 0.1) = false := by
      simp only [pyLt, decide_eq_false_iff_not]
      norm_num
    have h2 : pyLt (.finite 5.0) (.finite 1.25) = false := by
      simp only [pyLt, decide_eq_false_iff_not]
      norm_num
    simp [get_gain_result, hq, h1, h2]
  · intro hq
    simp [get_gain_result, hq, pyLt, h5]
  · intro hq
    simp [get_gain_result, hq, pyLt]
  · intro hq
    simp [get_gain_result, hq, pyLt]
  · intro hq
    simp [get_gain_result, hq]

/-- Witness for the amended C2: a configured finite gain of 7 is
clamped down to 5. -/
theorem C2_amended_gain_resolution_witness :
    (get_config (some ⟨"", some (.parsed (.finite 7)), none, none⟩)).gain
      = some (.parsed (.finite 7)) ∧
    (5 : ℚ) < 7 ∧
    get_gain_result (some ⟨"", some (.parsed (.finite 7)), none, none⟩)
      = .ok (.finite 5) :=
  ⟨rfl, by norm_num,
   ((C2_amended_gain_resolution
       (some ⟨"", some (.parsed (.finite 7)), none, none⟩)).1 7 rfl).2.1
     (by norm_num)⟩

/-! ## Trace lemmas for the recorder state machine -/

lemma last_begin_from_append (acc : Option String) (a b : List Effect) :
    last_begin_from acc (a ++ b) = last_begin_from (last_begin_from acc a) b := by
  simp [last_begin_from, List.foldl_append]

lemma start_last_path (env : Env) (s : Sys) :
    (start env s).1.recorder.last_path
      = last_begin_from s.recorder.last_path (start env s).2 := by
  by_cases h1 : env.col_open = false
  · simp [start, h1, last_begin_from, begin_step]
  · by_cases h2 : env.has_audio_input = false
    · simp [start, h1, h2, last_begin_from, begin_step]
    · simp [start, h1, h2, last_begin_from, begin_step]

lemma stop_last_path (env : Env) (s : Sys) :
    (stop env s).1.recorder.last_path
      = last_begin_from s.recorder.last_path (stop env s).2 := by
  rcases h : s.recorder.last_path with _ | p
  · simp [stop, h, last_begin_from, begin_step]
  · rcases hr : (amplify_wav s.fs p (get_gain env.config)).2 with _ | m <;>
      simp [stop, h, hr, last_begin_from, begin_step]

lemma play_last_effects_no_begin (s : Sys) :
    last_begin_from s.recorder.last_path (play_last s) = s.recorder.last_path := by
  rcases h : s.recorder.last_path with _ | p
  · simp [play_last, h, last_begin_from, begin_step]
  · rcases hf : fs_lookup s.fs p with _ | c <;>
      simp [play_last, h, hf, last_begin_from, begin_step]

lemma step_last_path (e : Event) (s : Sys) :
    (step e s).1.recorder.last_path
      = last_begin_from s.recorder.last_path (step e s).2 := by
  cases e with
  | start env => exact start_last_path env s
  | stop env => exact stop_last_path env s
  | toggle env =>
    by_cases h : s.recorder.recording
    · simp only [step, toggle, h, if_true]
      exact stop_last_path env s
    · simp only [step, toggle, h, if_false]
      exact start_last_path env s
  | play_last env =>
    simp only [step]
    exact (play_last_effects_no_begin s).symm

lemma run_last_path (es : List Event) :
    ∀ s : Sys, (run es s).1.recorder.last_path
      = last_begin_from s.recorder.last_path (run es s).2 := by
  induction es with
  | nil => intro s; simp [run, last_begin_from]
  | cons e es ih =>
    intro s
    simp only [run]
    rw [ih (step e s).1, step_last_path e s, last_begin_from_append]

/-! ## Claims about the recorder state machine -/

/-- C3 as stated is false on the code: `VoiceRecorder.start` performs no
check of `self._recording`.  Called while already recording (here with
an open collection, an input device, save directory `d` and a previous
recording `old.wav`), it begins a second capture to a fresh file and
repoints `last_path` at it — the state changes and a `begin_capture`
effect is emitted, so it is not a rejected no-op. -/
theorem C3_counterexample :
    start
      { col_open := true, has_audio_input := true,
        config := some { save_dir := "d", gain := none,
                         record_shortcut := none, play_shortcut := none },
        media_dir := "m", now := "20250101_000000",
        shortcut_valid := fun _ => true, shortcut_norm := fun s => s }
      { recorder := { recording := true, last_path := some "old.wav" }, fs := [] }
    = ({ recorder := { recording := true,
                       last_path := some "d/voice_20250101_000000.wav" }, fs := [] },
       [.begin_capture "d/voice_20250101_000000.wav",
        .tooltip "Recording started (Ctrl+R to stop)"]) := by
  decide

/-- C3 amended: the raw `start` method does not guard on the Recording
state, but the sole command-surface entry point `toggle` dispatches to
`stop` whenever the recorder is recording, so through the command
surface `start` is never invoked from the Recording state and at most
one recording is active at a time. -/
theorem C3_amended_toggle_never_starts_while_recording (env : Env) (s : Sys)
    (h : s.recorder.recording = true) : toggle env s = stop env s := by
  simp [toggle, h]

/-- Witness for the amended C3 at a concrete recording state. -/
theorem C3_amended_toggle_never_starts_while_recording_witness :
    ({ recorder := { recording := true, last_path := none },
       fs := [] } : Sys).recorder.recording = true ∧
    toggle
      { col_open := true, has_audio_input := true, config := none,
        media_dir := "m", now := "t",
        shortcut_valid := fun _ => true, shortcut_norm := fun s => s }
      { recorder := { recording := true, last_path := none }, fs := [] }
    = stop
      { col_open := true, has_audio_input := true, config := none,
        media_dir := "m", now := "t",
        shortcut_valid := fun _ => true, shortcut_norm := fun s => s }
      { recorder := { recording := true, last_path := none }, fs := [] } :=
  ⟨rfl,
   C3_amended_toggle_never_starts_while_recording
     { col_open := true, has_audio_input := true, config := none,
       media_dir := "m", now := "t",
       shortcut_valid := fun _ => true, shortcut_norm := fun s => s }
     { recorder := { recording := true, last_path := none }, fs := [] } rfl⟩

/-- C4 as stated is false on the code: `start` already sets
`self._last_path` to the destination of the capture it begins.  After a
single `start` from the initial state, a recording is in progress, no
recording has ever completed (the emitted effects contain neither an
`end_capture` nor any completion report), and yet `last_path` is set —
it refers to the in-progress file, not to a previously completed one. -/
theorem C4_counterexample :
    run
      [Event.start
        { col_open := true, has_audio_input := true,
          config := some { save_dir := "d", gain := none,
                           record_shortcut := none, play_shortcut := none },
          media_dir := "m", now := "t",
          shortcut_valid := fun _ => true, shortcut_norm := fun s => s }]
      (init [])
    = ({ recorder := { recording := true, last_path := some "d/voice_t.wav" },
         fs := [] },
       [.begin_capture "d/voice_t.wav",
        .tooltip "Recording started (Ctrl+R to stop)"]) := by
  decide

/-- C4 amended: in every state reachable from the initial one,
`last_path` is the destination of the most recently begun capture —
set at `start` time, so during a recording it refers to the in-progress
file — or unset if no capture has ever been begun. -/
theorem C4_amended_last_path_tracks_last_started_capture
    (es : List Event) (fs : FS) :
    (run es (init fs)).1.recorder.last_path = last_begin (run es (init fs)).2 := by
  have h := run_last_path es (init fs)
  simpa [init, last_begin] using h

/-- C5 as stated is false on the code: `VoiceRecorder.stop` does not
check `self._recording` and amplifies whatever `_last_path` points at.
Called while Idle with a completed recording of one sample 10000 and a
configured gain of 2, it re-amplifies the file on disk to 20000 — a
file on disk changes, so stop-while-Idle is not a no-op. -/
theorem C5_counterexample :
    (stop
      { col_open := true, has_audio_input := true,
        config := some { save_dir := "", gain := some (.parsed (.finite 2)),
                         record_shortcut := none, play_shortcut := none },
        media_dir := "m", now := "t",
        shortcut_valid := fun _ => true, shortcut_norm := fun s => s }
      { recorder := { recording := false, last_path := some "d/v.wav" },
        fs := [("d/v.wav", .wav ⟨1, 2, 8000, 1, "NONE", [10000]⟩)] }).1.fs
      = [("d/v.wav", .wav ⟨1, 2, 8000, 1, "NONE", [20000]⟩)] ∧
    [("d/v.wav", WavContent.wav ⟨1, 2, 8000, 1, "NONE", [20000]⟩)]
      ≠ [("d/v.wav", WavContent.wav ⟨1, 2, 8000, 1, "NONE", [10000]⟩)] := by
  constructor
  · have hg : get_gain (some ⟨"", some (.parsed (.finite 2)), none, none⟩) = 2 := by
      have h1 : pyLt (.finite 2) (.finite 0.1) = false := by
        simp only [pyLt, decide_eq_false_iff_not]
        norm_num
      have h2 : pyLt (.finite 5.0) (.finite 2) = false := by
        simp only [pyLt, decide_eq_false_iff_not]
        norm_num
      simp [get_gain, get_gain_result, get_config, h1, h2]
    have hs : mul_sample 2 2 10000 = 20000 := by
      rw [mul_sample]
      rw [show ⌊(2 : ℚ) * ((10000 : Int) : ℚ)⌋ = 20000 by norm_num]
      decide
    have hamp : amplify_wav [("d/v.wav", .wav ⟨1, 2, 8000, 1, "NONE", [10000]⟩)]
        "d/v.wav" 2
        = ([("d/v.wav", .wav ⟨1, 2, 8000, 1, "NONE", [20000]⟩)], none) := by
      rw [amplify_wav_ok [("d/v.wav", .wav ⟨1, 2, 8000, 1, "NONE", [10000]⟩)]
        "d/v.wav" 2 ⟨1, 2, 8000, 1, "NONE", [10000]⟩ rfl (by decide)]
      simp [fs_update, hs]
    simp [stop, hg, hamp]
  · decide

/-- C5 amended: `stop` while Idle leaves the recording flag and
`last_path` unchanged; when no recording was ever started it changes
nothing beyond halting capture and reporting, but when `last_path` is
set it re-runs the amplifier on that file with the currently configured
gain (so the file on disk may change). -/
theorem C5_amended_stop_idle_behavior (env : Env) (s : Sys)
    (h : s.recorder.recording = false) :
    (stop env s).1.recorder.recording = false ∧
    (stop env s).1.recorder.last_path = s.recorder.last_path ∧
    (s.recorder.last_path = none →
      stop env s = (s, [.end_capture, .tooltip "Recording stopped."])) ∧
    (∀ p, s.recorder.last_path = some p →
      (stop env s).1.fs = (amplify_wav s.fs p (get_gain env.config)).1) := by
  obtain ⟨⟨rec0, lp0⟩, fs0⟩ := s
  cases rec0 with
  | true => simp at h
  | false =>
    rcases lp0 with _ | p
    · refine ⟨by simp [stop], by simp [stop], ?_, ?_⟩
      · intro _
        simp [stop]
      · intro p hp
        cases hp
    · refine ⟨by simp [stop], by simp [stop], ?_, ?_⟩
      · intro h0
        cases h0
      · intro q hq
        cases hq
        simp [stop]

/-- Witness for the amended C5: a fresh Idle state with no last path is
returned unchanged apart from the halt-capture and tooltip effects. -/
theorem C5_amended_stop_idle_behavior_witness :
    ({ recorder := { recording := false, last_path := none },
       fs := [] } : Sys).recorder.recording = false ∧
    stop
      { col_open := true, has_audio_input := true, config := none,
        media_dir := "m", now := "t",
        shortcut_valid := fun _ => true, shortcut_norm := fun s => s }
      { recorder := { recording := false, last_path := none }, fs := [] }
    = ({ recorder := { recording := false, last_path := none }, fs := [] },
       [.end_capture, .tooltip "Recording stopped."]) :=
  ⟨rfl,
   (C5_amended_stop_idle_behavior
     { col_open := true, has_audio_input := true, config := none,
       media_dir := "m", now := "t",
       shortcut_valid := fun _ => true, shortcut_norm := fun s => s }
     { recorder := { recording := false, last_path := none }, fs := [] }
     rfl).2.2.1 rfl⟩

/-- C6 as stated is false on the code: after a single `start` from the
initial state (save directory `d`, a stale file already on disk at the
computed destination), no recording has ever completed — the trace
contains no `stop` and the effects contain no completion report — yet
`play_last` does not warn "no recording available": `_last_path` was
already set by `start`, the file exists, and the player is invoked on
the in-progress destination. -/
theorem C6_counterexample :
    (run
      [Event.start
        { col_open := true, has_audio_input := true,
          config := some { save_dir := "d", gain := none,
                           record_shortcut := none, play_shortcut := none },
          media_dir := "m", now := "t",
          shortcut_valid := fun _ => true, shortcut_norm := fun s => s }]
      (init [("d/voice_t.wav", .wav ⟨1, 2, 8000, 1, "NONE", [7]⟩)])).2
      = [.begin_capture "d/voice_t.wav",
         .tooltip "Recording started (Ctrl+R to stop)"] ∧
    play_last
      (run
        [Event.start
          { col_open := true, has_audio_input := true,
            config := some { save_dir := "d", gain := none,
                             record_shortcut := none, play_shortcut := none },
            media_dir := "m", now := "t",
            shortcut_valid := fun _ => true, shortcut_norm := fun s => s }]
        (init [("d/voice_t.wav", .wav ⟨1, 2, 8000, 1, "NONE", [7]⟩)])).1
      = [.play "d/voice_t.wav", .tooltip "Playing last recording"] := by
  constructor
  · decide
  · decide

/-- C6 amended: `play_last` warns "no recording available" and does not
touch the player exactly when `last_path` is unset (no recording has
ever been started); it warns without playing when the file at
`last_path` is missing from disk; otherwise it plays the file at
`last_path`, which during an active recording is the in-progress
capture destination. -/
theorem C6_amended_play_last_behavior (s : Sys) :
    (s.recorder.last_path = none →
      play_last s = [.warn "No recording available yet."]) ∧
    (∀ p, s.recorder.last_path = some p → fs_lookup s.fs p = none →
      play_last s = [.warn "Last recording file is missing."]) ∧
    (∀ p c, s.recorder.last_path = some p → fs_lookup s.fs p = some c →
      play_last s = [.play p, .tooltip "Playing last recording"]) := by
  refine ⟨?_, ?_, ?_⟩
  · intro h
    simp [play_last, h]
  · intro p hp hf
    simp [play_last, hp, hf]
  · intro p c hp hf
    simp [play_last, hp, hf]

/-- Witness for the amended C6: in the initial state `play_last` warns
and does not invoke the player. -/
theorem C6_amended_play_last_behavior_witness :
    (init []).recorder.last_path = none ∧
    play_last (init []) = [.warn "No recording available yet."] :=
  ⟨rfl, (C6_amended_play_last_behavior (init [])).1 rfl⟩

/-- C7 as stated is false on the code: on a nonexistent path
`_amplify_wav` returns before the `try` block, so it is a no-op with
NO logged failure — the diagnostic output (second component) is `none`,
while the claim requires a logged failure. -/
theorem C7_counterexample : amplify_wav [] "a.wav" 2 = ([], none) := rfl

/-- C7 amended: on a nonexistent path the amplifier is a silent no-op
(no log); any read or format failure during amplification is caught and
logged without propagating, leaving the filesystem unchanged; the
function is total, so no exception ever escapes its entry point. -/
theorem C7_amended_amplify_error_handling (fs : FS) (p : String) (g : ℚ) :
    (fs_lookup fs p = none → amplify_wav fs p g = (fs, none)) ∧
    (∀ d, fs_lookup fs p = some (.malformed d) →
      amplify_wav fs p g = (fs, some ("AnkiVoiceRecorder gain failed: " ++ d))) ∧
    (∀ m, (amplify_wav fs p g).2 = some m → (amplify_wav fs p g).1 = fs) := by
  refine ⟨?_, ?_, ?_⟩
  · intro h
    rw [amplify_wav, h]
  · intro d h
    rw [amplify_wav, h]
    rfl
  · intro m hm
    rcases hl : fs_lookup fs p with _ | c
    · simp [amplify_wav, hl]
    · rcases hr : wave_read c with e | f
      · simp [amplify_wav, hl, hr]
      · rcases hmu : audioop_mul (f.samples.take (f.nframes * f.nchannels))
            f.sampwidth g with e | amp
        · simp [amplify_wav, hl, hr, hmu]
        · rw [amplify_wav, hl] at hm
          simp [hr, hmu] at hm

/-- Witness for the amended C7: a malformed file is left unchanged and
the failure is logged. -/
theorem C7_amended_amplify_error_handling_witness :
    fs_lookup [("x.wav", WavContent.malformed "RIFF header missing")] "x.wav"
      = some (.malformed "RIFF header missing") ∧
    amplify_wav [("x.wav", WavContent.malformed "RIFF header missing")] "x.wav" 2
      = ([("x.wav", WavContent.malformed "RIFF header missing")],
         some "AnkiVoiceRecorder gain failed: RIFF header missing") :=
  ⟨rfl,
   (C7_amended_amplify_error_handling
     [("x.wav", WavContent.malformed "RIFF header missing")] "x.wav" 2).2.1
     "RIFF header missing" rfl⟩

/-- C9: whenever the user enters an invalid shortcut string — for the
record shortcut, or for the play shortcut after a valid record
shortcut — the dialog flow ends with a warning and the configuration
value is returned unchanged with no persistence effect: in particular a
valid record shortcut entered before an invalid play shortcut is not
persisted. -/
theorem C9_invalid_shortcut_leaves_config_unchanged
    (valid : String → Bool) (norm : String → String)
    (ri pi : Option String) (c : Config) :
    (∀ r, ri = some r → valid (pyStrip r) = false →
      set_keybindings valid norm ri pi c
        = (c, [.prompt "Recording Shortcut" (current_record_text c),
               .warn "Invalid shortcut for recording."])) ∧
    (∀ r p, ri = some r → valid (pyStrip r) = true →
      pi = some p → valid (pyStrip p) = false →
      set_keybindings valid norm ri pi c
        = (c, [.prompt "Recording Shortcut" (current_record_text c),
               .prompt "Playback Shortcut" (current_play_text c),
               .warn "Invalid shortcut for playback."])) := by
  constructor
  · intro r hri hv
    subst hri
    simp [set_keybindings, hv]
  · intro r p hri hvr hpi hvp
    subst hri
    subst hpi
    simp [set_keybindings, hvr, hvp]

/-- Witness for C9: a valid record shortcut followed by an invalid play
shortcut ends with a warning and no configuration change. -/
theorem C9_invalid_shortcut_leaves_config_unchanged_witness :
    ((fun s => s == "Ctrl+P") (pyStrip "Ctrl+P") = true ∧
     (fun s => s == "Ctrl+P") (pyStrip "oops") = false) ∧
    set_keybindings (fun s => s == "Ctrl+P") (fun s => s)
        (some "Ctrl+P") (some "oops") ⟨"", none, none, none⟩
      = (⟨"", none, none, none⟩,
         [.prompt "Recording Shortcut" "Ctrl+R",
          .prompt "Playback Shortcut" "Ctrl+Shift+R",
          .warn "Invalid shortcut for playback."]) :=
  ⟨⟨by decide, by decide⟩,
   (C9_invalid_shortcut_leaves_config_unchanged (fun s => s == "Ctrl+P")
     (fun s => s) (some "Ctrl+P") (some "oops") ⟨"", none, none, none⟩).2
     "Ctrl+P" "oops" rfl (by decide) rfl (by decide)⟩

end AVR
